import Mathlib

/-!
Verification development for the OpenTurbofanArchitecting repository.

This file gives a shallow embedding in Lean 4 of the parts of the code that
the checked claims are about:
* the design-variable encode/decode/imputation layer
  (`open_turb_arch/architecting/opt_defs.py`),
* the default turbojet architecture and the fan / gearbox architecting
  choices (`turbojet_architecture.py`, `turbofan/fan_choice.py`,
  `turbofan/gearbox_choice.py`),
* design-vector processing, architecture generation, and the cached
  `evaluate` operation (`architecting/problem.py`),
* the design and off-design balance assembly
  (`evaluation/analysis/balancer.py`, `evaluation/analysis/builder.py`).

Conventions used throughout:
* Python floats are modelled as `ℚ`; a raw design-vector slot is an `EncVal`
  (either an integer index or a rational), matching the dynamically typed
  `EncodedValue = Union[float, int]`.
* Fallible Python code (raising `IndexError`, `ValueError`, `RuntimeError`,
  ...) is modelled with `Except EvalErr`.
* Mutable object references (`inlet.target = fan`, shaft connection lists)
  are modelled by storing element names; element names are unique in every
  architecture the code builds, so by-name update is faithful to by-reference
  mutation.
-/

/-- Python exception kinds raised by the embedded code paths. -/
inductive EvalErr
  | indexError
  | valueError
  | typeError
  | zeroDivisionError
  | runtimeError (msg : String)
  | attributeError
deriving DecidableEq

/-- A raw (encoded) design-vector entry: `EncodedValue = Union[float, int]`. -/
inductive EncVal
  | int (i : Int)
  | real (q : ℚ)
deriving DecidableEq

/-- A decoded design-variable value. For the embedded choices the decoded
values are Python bools (`include_fan`, `include_gear`) or numbers. -/
inductive DecVal
  | b (x : Bool)
  | q (x : ℚ)
deriving DecidableEq

/-- Python truthiness of a decoded value (`if include_fan:`). -/
def DecVal.truthy : DecVal → Bool
  | .b x => x
  | .q x => decide (x ≠ 0)

/-- Numeric coercion of a decoded value (Python bools are the numbers 0/1). -/
def DecVal.toNum : DecVal → ℚ
  | .b x => cond x 1 0
  | .q x => x

/-- `ContinuousDesignVariable` from `opt_defs.py` (name, bounds, optional
fixed value). -/
structure ContinuousDesignVariable where
  name : String
  bounds : ℚ × ℚ
  fixed_value : Option ℚ := none
deriving DecidableEq

/-- `IntegerDesignVariable` from `opt_defs.py`. The repository's
`fan_choice.py`/`gearbox_choice.py` refer to it as `DiscreteDesignVariable`
(re-exported by a package `__init__` that is not under `src/`); its semantics
are those of `IntegerDesignVariable` in `opt_defs.py`. -/
structure IntegerDesignVariable where
  name : String
  values : List DecVal
  fixed_value : Option DecVal := none
deriving DecidableEq

/-- `ContinuousDesignVariable.encode`: the identity on the numeric value. -/
def ContinuousDesignVariable.encode (_ : ContinuousDesignVariable) (value : DecVal) : EncVal :=
  match value with
  | .q x => .real x
  | .b x => .int (cond x 1 0)

/-- `ContinuousDesignVariable.decode`: the identity on the numeric value. -/
def ContinuousDesignVariable.decode (_ : ContinuousDesignVariable) (value : EncVal) : DecVal :=
  match value with
  | .real q => .q q
  | .int i => .q i

/-- `ContinuousDesignVariable.get_imputed_value`:
`(self.bounds[0]+self.bounds[1])/2.`. -/
def ContinuousDesignVariable.get_imputed_value (v : ContinuousDesignVariable) : EncVal :=
  .real ((v.bounds.1 + v.bounds.2) / 2)

/-- `IntegerDesignVariable.encode`: `self.values.index(value)`, raising
`ValueError` when the value is not in the list. -/
def IntegerDesignVariable.encode (v : IntegerDesignVariable) (value : DecVal) :
    Except EvalErr EncVal :=
  match v.values.findIdx? (fun x => x = value) with
  | some i => .ok (.int i)
  | none => .error .valueError

/-- `IntegerDesignVariable.decode`: raises `IndexError` for a negative index
and for `self.values[value]` out of range. -/
def IntegerDesignVariable.decode (v : IntegerDesignVariable) (value : Int) :
    Except EvalErr DecVal :=
  if value < 0 then .error .indexError
  else
    match v.values.get? value.toNat with
    | some x => .ok x
    | none => .error .indexError

/-- `IntegerDesignVariable.get_imputed_value`: always the encoded index `0`. -/
def IntegerDesignVariable.get_imputed_value (_ : IntegerDesignVariable) : EncVal :=
  .int 0

/-- `DesignVariable`: tagged union of the two concrete design-variable
classes of `opt_defs.py`. -/
inductive DesignVariable
  | cont (v : ContinuousDesignVariable)
  | disc (v : IntegerDesignVariable)
deriving DecidableEq

/-- `DesignVariable.is_fixed`. -/
def DesignVariable.is_fixed : DesignVariable → Bool
  | .cont v => v.fixed_value.isSome
  | .disc v => v.fixed_value.isSome

/-- `DesignVariable.get_fixed_value` (for an `IntegerDesignVariable` the
fixed value must be a member of the value list, else `ValueError`). -/
def DesignVariable.get_fixed_value : DesignVariable → Except EvalErr DecVal
  | .cont v =>
    match v.fixed_value with
    | some x => .ok (.q x)
    | none => .error .attributeError
  | .disc v =>
    match v.fixed_value with
    | some x => if x ∈ v.values then .ok x else .error .valueError
    | none => .error .attributeError

/-- `DesignVariable.encode`. -/
def DesignVariable.encode : DesignVariable → DecVal → Except EvalErr EncVal
  | .cont v, x => .ok (v.encode x)
  | .disc v, x => v.encode x

/-- `DesignVariable.decode`. Handing a float to a discrete variable would be
a Python `TypeError` (`list[float]`). -/
def DesignVariable.decode : DesignVariable → EncVal → Except EvalErr DecVal
  | .cont v, x => .ok (v.decode x)
  | .disc v, .int i => v.decode i
  | .disc _, .real _ => .error .typeError

/-- `DesignVariable.get_imputed_value`. -/
def DesignVariable.get_imputed_value : DesignVariable → EncVal
  | .cont v => v.get_imputed_value
  | .disc v => v.get_imputed_value

/-- `CompressorMap` (`turbomachinery.py`). -/
inductive CompressorMap
  | AXI_5
  | LPC
  | HPC
  | Fan
deriving DecidableEq

/-- `TurbineMap` (`turbomachinery.py`). -/
inductive TurbineMap
  | LPT_2269
  | LPT
  | HPT
deriving DecidableEq

/-- `FuelType` (`turbomachinery.py`). -/
inductive FuelType
  | JET_A
  | JP_7
  | H2
  | CH4
  | H2O
deriving DecidableEq

/-- `NozzleType` (`flow.py`). -/
inductive NozzleType
  | CV
  | CD
  | CV_CD
deriving DecidableEq

/-- The architecture-element kinds relevant to the claims (the tagged variant
over the `ArchElement` subclasses of `flow.py`/`turbomachinery.py`).
`bleedEl` stands for the `Bleed` element that `turbojet_architecture.py`
instantiates; the `Bleed` class itself is not under `src/` (it would come
from the `evaluation.architecture` package `__init__`), so it is modelled as
an opaque element that is none of the other kinds. Flow and shaft references
are stored as element names (names are unique per architecture). -/
inductive ArchElement
  | inlet (name : String) (mach p_recovery : ℚ) (target : Option String)
  | compressor (name : String) (map : CompressorMap) (mach pr eff : ℚ)
      (target : Option String) (offtake_bleed : Bool)
  | burner (name : String) (fuel : FuelType) (mach p_loss_frac : ℚ)
      (target : Option String) (main : Bool)
  | turbine (name : String) (map : TurbineMap) (mach eff : ℚ) (target : Option String)
  | nozzle (name : String) (type : NozzleType) (v_loss_coefficient : ℚ)
      (fuel_in_air : Bool) (target : Option String)
  | splitter (name : String) (bpr core_mach bypass_mach : ℚ)
      (target_core target_bypass : Option String)
  | mixer (name : String) (mach : ℚ) (source_1 source_2 target : Option String)
  | shaft (name : String) (connections : List String) (rpm_design power_loss : ℚ)
      (offtake_shaft : Bool)
  | gearbox (name : String) (core_shaft fan_shaft : Option String)
  | bleedEl (name : String)
deriving DecidableEq

/-- Kinds used by `get_elements_by_type` / `isinstance` queries. -/
inductive ElemKind
  | Inlet
  | Compressor
  | Burner
  | Turbine
  | Nozzle
  | Splitter
  | Mixer
  | Shaft
  | Gearbox
  | Bleed
deriving DecidableEq

/-- The unique name of an element. -/
def ArchElement.name : ArchElement → String
  | .inlet n _ _ _ => n
  | .compressor n _ _ _ _ _ _ => n
  | .burner n _ _ _ _ _ => n
  | .turbine n _ _ _ _ => n
  | .nozzle n _ _ _ _ => n
  | .splitter n _ _ _ _ _ => n
  | .mixer n _ _ _ _ => n
  | .shaft n _ _ _ _ => n
  | .gearbox n _ _ => n
  | .bleedEl n => n

/-- The kind (Python class) of an element. -/
def ArchElement.kind : ArchElement → ElemKind
  | .inlet .. => .Inlet
  | .compressor .. => .Compressor
  | .burner .. => .Burner
  | .turbine .. => .Turbine
  | .nozzle .. => .Nozzle
  | .splitter .. => .Splitter
  | .mixer .. => .Mixer
  | .shaft .. => .Shaft
  | .gearbox .. => .Gearbox
  | .bleedEl .. => .Bleed

/-- The main flow `target` reference of an element (`None` where absent). -/
def ArchElement.getTarget : ArchElement → Option String
  | .inlet _ _ _ t => t
  | .compressor _ _ _ _ _ t _ => t
  | .burner _ _ _ _ t _ => t
  | .turbine _ _ _ _ t => t
  | .nozzle _ _ _ _ t => t
  | .mixer _ _ _ _ t => t
  | _ => none

/-- Set the main flow `target` reference (identity on kinds without one). -/
def ArchElement.setTarget (t : Option String) : ArchElement → ArchElement
  | .inlet n m p _ => .inlet n m p t
  | .compressor n mp m pr e _ ob => .compressor n mp m pr e t ob
  | .burner n f m pl _ mn => .burner n f m pl t mn
  | .turbine n mp m e _ => .turbine n mp m e t
  | .nozzle n ty v fia _ => .nozzle n ty v fia t
  | .mixer n m s1 s2 _ => .mixer n m s1 s2 t
  | e => e

/-- Set a nozzle's `type` field (identity on other kinds). -/
def ArchElement.setNozzleType (ty : NozzleType) : ArchElement → ArchElement
  | .nozzle n _ v fia t => .nozzle n ty v fia t
  | e => e

/-- Append a machinery element name to a shaft's `connections` list. -/
def ArchElement.shaftAppendConn (c : String) : ArchElement → ArchElement
  | .shaft n conns r pl os => .shaft n (conns ++ [c]) r pl os
  | e => e

/-- Replace a shaft's `connections` list. -/
def ArchElement.shaftSetConns (cs : List String) : ArchElement → ArchElement
  | .shaft n _ r pl os => .shaft n cs r pl os
  | e => e

/-- A shaft's `connections` list (`[]` for other kinds). -/
def ArchElement.shaftConns : ArchElement → List String
  | .shaft _ conns _ _ _ => conns
  | _ => []

/-- A shaft's `rpm_design` (`0` for other kinds). -/
def ArchElement.shaftRpm : ArchElement → ℚ
  | .shaft _ _ r _ _ => r
  | _ => 0

/-- The `offtake_bleed` flag of a compressor (`False` elsewhere; the Python
default is `None`, which is falsy). -/
def ArchElement.isOfftakeBleed : ArchElement → Bool
  | .compressor _ _ _ _ _ _ ob => ob
  | _ => false

/-- `TurbofanArchitecture` (`architecture.py`): an ordered element list. -/
structure TurbofanArchitecture where
  elements : List ArchElement
deriving DecidableEq

/-- `TurbofanArchitecture.get_elements_by_type`. -/
def TurbofanArchitecture.get_elements_by_type (a : TurbofanArchitecture) (k : ElemKind) :
    List ArchElement :=
  a.elements.filter (fun e => e.kind = k)

/-- `list.index` by element name (`ValueError` when absent). -/
def TurbofanArchitecture.indexOfName (a : TurbofanArchitecture) (n : String) :
    Except EvalErr Nat :=
  match a.elements.findIdx? (fun e => e.name = n) with
  | some i => .ok i
  | none => .error .valueError

/-- By-name element update, modelling mutation through an object reference. -/
def TurbofanArchitecture.update (a : TurbofanArchitecture) (n : String)
    (f : ArchElement → ArchElement) : TurbofanArchitecture :=
  ⟨a.elements.map (fun e => if e.name = n then f e else e)⟩

/-- `list.insert(i, x)` (Python clamps the position to the list length). -/
def List.insertAtPos (l : List α) (i : Nat) (x : α) : List α :=
  l.take i ++ x :: l.drop i

/-- Insert an element at a position in the architecture's element list. -/
def TurbofanArchitecture.insertEl (a : TurbofanArchitecture) (i : Nat) (e : ArchElement) :
    TurbofanArchitecture :=
  ⟨a.elements.insertAtPos i e⟩

/-- The shaft owning a rotating element: the shaft whose `connections`
contain it (set on the element by `Shaft._set_shaft_ref`). -/
def TurbofanArchitecture.shaftOf (a : TurbofanArchitecture) (elName : String) :
    Option ArchElement :=
  a.elements.find? (fun e => e.kind = ElemKind.Shaft && e.shaftConns.contains elName)

/-- `get_turbojet_architecture` from `turbojet_architecture.py`: the default
turbojet every generated architecture starts from. (`Bleed` is the element
class missing from `src/`, see `ArchElement.bleedEl`.) -/
def get_turbojet_architecture : TurbofanArchitecture :=
  ⟨[ .inlet "inlet" (3/5) 1 (some "compressor"),
     .compressor "compressor" .AXI_5 (1/50) (27/2) (83/100) (some "burner") false,
     .burner "burner" .JET_A (1/50) (3/100) (some "turbine") true,
     .turbine "turbine" .LPT_2269 (2/5) (86/100) (some "nozzle"),
     .nozzle "nozzle" .CD (99/100) true none,
     .shaft "shaft" ["compressor", "turbine"] 8070 0 false,
     .bleedEl "bleed" ]⟩

/-- First element of a list, raising `IndexError` like Python `xs[0]`. -/
def List.headE : List α → Except EvalErr α
  | [] => .error .indexError
  | x :: _ => .ok x

/-- `FanChoice` (`turbofan/fan_choice.py`): dataclass fields with their
declared defaults. -/
structure FanChoice where
  fix_include_fan : Option Bool := none
  fixed_bpr : Option ℚ := none
  bpr_bounds : ℚ × ℚ := (2, 25/2)
  fixed_fpr : Option ℚ := none
  fpr_bounds : ℚ × ℚ := (11/10, 9/5)
deriving DecidableEq

/-- `FanChoice.get_design_variables`. -/
def FanChoice.get_design_variables (c : FanChoice) : List DesignVariable :=
  [ .disc ⟨"include_fan", [.b false, .b true], c.fix_include_fan.map .b⟩,
    .cont ⟨"bpr", c.bpr_bounds, c.fixed_bpr⟩,
    .cont ⟨"fpr", c.fpr_bounds, c.fixed_fpr⟩ ]

/-- `FanChoice._include_fan`: inserts the fan, splitter and bypass nozzle
into the architecture, reroutes the inlet flow and couples the fan to the
(first) shaft. Element accesses `[0]` raise `IndexError` when missing. -/
def FanChoice.include_fan_mut (arch : TurbofanArchitecture) (bpr fpr : ℚ) :
    Except EvalErr TurbofanArchitecture :=
  match (arch.get_elements_by_type .Nozzle).headE,
        (arch.get_elements_by_type .Inlet).headE,
        (arch.get_elements_by_type .Shaft).headE with
  | .ok nozzle_core, .ok inletEl, .ok shaftEl =>
    -- `compressor = inlet.target`, read before the reroute
    let compressorT := inletEl.getTarget
    let fan : ArchElement := .compressor "fan" .AXI_5 (2289/5000) fpr (89/100) (some "splitter") false
    let splitterEl : ArchElement := .splitter "splitter" bpr (3/10) (9/20) compressorT (some "bypass_nozzle")
    let bypass_nozzle : ArchElement := .nozzle "bypass_nozzle" .CV (99/100) false none
    -- `nozzle_core.type = NozzleType.CV`
    let a0 := arch.update nozzle_core.name (ArchElement.setNozzleType .CV)
    let a1 := (a0.insertEl 1 fan).insertEl 2 splitterEl
    match a1.indexOfName nozzle_core.name with
    | .error e => .error e
    | .ok i =>
      let a2 := a1.insertEl (i+1) bypass_nozzle
      -- `inlet.target = fan`, `shaft.connections.append(fan)`
      .ok (((a2.update inletEl.name (ArchElement.setTarget (some "fan"))).update
        shaftEl.name (ArchElement.shaftAppendConn "fan")))
  | .error e, _, _ => .error e
  | _, .error e, _ => .error e
  | _, _, .error e => .error e

/-- `FanChoice.modify_architecture`: returns the mutated architecture and the
per-variable activity list `[True, include_fan, include_fan]` (Python's
`Sequence[Union[bool, DecodedValue]]` is a `DecVal` list here: `.b true` is
`True`, `.b false` is `False`, anything else is an explicit override). -/
def FanChoice.modify_architecture (arch : TurbofanArchitecture) (design_vector : List DecVal) :
    Except EvalErr (TurbofanArchitecture × List DecVal) :=
  match design_vector with
  | [include_fan, bpr, fpr] =>
    let is_active : List DecVal := [.b true, include_fan, include_fan]
    if include_fan.truthy then
      match FanChoice.include_fan_mut arch bpr.toNum fpr.toNum with
      | .error e => .error e
      | .ok a => .ok (a, is_active)
    else .ok (arch, is_active)
  | _ => .error .valueError

/-- `GearboxChoice` (`turbofan/gearbox_choice.py`): dataclass fields with
their declared defaults. -/
structure GearboxChoice where
  fix_include_gear : Option Bool := none
  fixed_gear : Option ℚ := none
  gear_bounds : ℚ × ℚ := (1, 5)
deriving DecidableEq

/-- `GearboxChoice.get_design_variables`. -/
def GearboxChoice.get_design_variables (c : GearboxChoice) : List DesignVariable :=
  [ .disc ⟨"include_gear", [.b false, .b true], c.fix_include_gear.map .b⟩,
    .cont ⟨"gear_r", c.gear_bounds, c.fixed_gear⟩ ]

/-- `GearboxChoice._include_gearbox`: detaches the fan from the core shaft,
adds a fan shaft and a gearbox. `rpm_design/gear_ratio` raises
`ZeroDivisionError` for a zero gear value; `del connections[-1]` raises
`IndexError` on an empty list. -/
def GearboxChoice.include_gearbox_mut (arch : TurbofanArchitecture) (gear : ℚ) :
    Except EvalErr TurbofanArchitecture :=
  match (arch.get_elements_by_type .Compressor).headE,
        (arch.get_elements_by_type .Shaft).headE with
  | .ok fan, .ok core_shaft =>
    if core_shaft.shaftConns = [] then .error .indexError
    else if gear = 0 then .error .zeroDivisionError
    else
      let fan_shaft : ArchElement :=
        .shaft "fan_shaft" [fan.name, "gearbox"] (core_shaft.shaftRpm / gear) 0 false
      let gearboxEl : ArchElement := .gearbox "gearbox" (some core_shaft.name) (some "fan_shaft")
      -- `del core_shaft.connections[-1]` then `core_shaft.connections.append(gearbox)`
      let a0 := arch.update core_shaft.name
        (ArchElement.shaftSetConns (core_shaft.shaftConns.dropLast ++ ["gearbox"]))
      match a0.indexOfName core_shaft.name with
      | .error e => .error e
      | .ok i =>
        let a1 := a0.insertEl i fan_shaft
        match a1.indexOfName "fan_shaft" with
        | .error e => .error e
        | .ok j => .ok (a1.insertEl j gearboxEl)
  | .error e, _ => .error e
  | _, .error e => .error e

/-- `GearboxChoice.modify_architecture`: the gearbox variables are active
only when a compressor named `'fan'` is present; Python's
`fan_present and include_gear` evaluates to `False` when no fan is present
and to the decoded `include_gear` value otherwise. -/
def GearboxChoice.modify_architecture (arch : TurbofanArchitecture)
    (design_vector : List DecVal) : Except EvalErr (TurbofanArchitecture × List DecVal) :=
  match design_vector with
  | [include_gear, gear] =>
    let fan_present := (arch.get_elements_by_type .Compressor).any (fun c => c.name = "fan")
    let is_active : List DecVal :=
      [.b fan_present, if fan_present then include_gear else .b false]
    if fan_present && include_gear.truthy then
      match GearboxChoice.include_gearbox_mut arch gear.toNum with
      | .error e => .error e
      | .ok a => .ok (a, is_active)
    else .ok (arch, is_active)
  | _ => .error .valueError

/-- `ArchitectingChoice` as consumed by `ArchitectingProblem`: the declared
design variables, the construction-order rank, and the graph-mutation rule. -/
structure ArchitectingChoice where
  desVars : List DesignVariable
  order : Int
  modify : TurbofanArchitecture → List DecVal → Except EvalErr (TurbofanArchitecture × List DecVal)

/-- The `FanChoice` as an `ArchitectingChoice` (construction order 1). -/
def FanChoice.toChoice (c : FanChoice) : ArchitectingChoice :=
  ⟨c.get_design_variables, 1, FanChoice.modify_architecture⟩

/-- The `GearboxChoice` as an `ArchitectingChoice` (construction order 2). -/
def GearboxChoice.toChoice (c : GearboxChoice) : ArchitectingChoice :=
  ⟨c.get_design_variables, 2, GearboxChoice.modify_architecture⟩

/-- `ArchitectingProblem.get_full_design_vector`: walk the declared design
variables, taking fixed values where present and consuming the free design
vector otherwise (raising `IndexError('Inconsistent design vector')` when the
free vector is exhausted); returns the full encoded vector and the decoded
vector. -/
def getFullDesignVector : List DesignVariable → List EncVal →
    Except EvalErr (List EncVal × List DecVal)
  | [], _ => .ok ([], [])
  | dv :: rest, free =>
    match dv.is_fixed with
    | true =>
      match dv.get_fixed_value with
      | .error e => .error e
      | .ok fixedVal =>
        match dv.encode fixedVal with
        | .error e => .error e
        | .ok enc =>
          match getFullDesignVector rest free with
          | .error e => .error e
          | .ok (fs, ds) => .ok (enc :: fs, fixedVal :: ds)
    | false =>
      match free with
      | [] => .error .indexError
      | v :: vrest =>
        match dv.decode v with
        | .error e => .error e
        | .ok d =>
          match getFullDesignVector rest vrest with
          | .error e => .error e
          | .ok (fs, ds) => .ok (v :: fs, d :: ds)

/-- One slot of the imputation loop in
`ArchitectingProblem.generate_architecture`: `False` → imputed default,
`True` → keep the raw value, anything else → encode the explicit override;
the returned flag is the slot's `is_active` entry. -/
def imputeSlot (desvar : DesignVariable) (act : DecVal) (cur : EncVal) :
    Except EvalErr (EncVal × Bool) :=
  if act = .b false then .ok (desvar.get_imputed_value, false)
  else if act = .b true then .ok (cur, true)
  else
    match desvar.encode act with
    | .error e => .error e
    | .ok v => .ok (v, false)

/-- The imputation loop over one choice's slice. Activity entries beyond the
choice's declared variables would index `self._opt_des_vars[i][j]` out of
range in Python (`IndexError`); entries that the choice does not return keep
the raw value and stay active. -/
def imputeSlots : List DesignVariable → List DecVal → List EncVal →
    Except EvalErr (List EncVal × List Bool)
  | _, [], curs => .ok (curs, curs.map (fun _ => true))
  | dvar :: dvs, act :: acts, cur :: curs =>
    match imputeSlot dvar act cur with
    | .error e => .error e
    | .ok (v, a) =>
      match imputeSlots dvs acts curs with
      | .error e => .error e
      | .ok (vs, bs) => .ok (v :: vs, a :: bs)
  | [], _ :: _, _ => .error .indexError
  | _ :: _, _ :: _, [] => .error .indexError

/-- The per-choice loop of `generate_architecture`: apply each choice's
`modify_architecture` to its contiguous slice of the decoded vector and
impute the corresponding slice of the full encoded vector. -/
def applyChoices : TurbofanArchitecture → List ArchitectingChoice → List DecVal →
    List EncVal → Except EvalErr (TurbofanArchitecture × List EncVal × List Bool)
  | arch, [], _, imputed => .ok (arch, imputed, imputed.map (fun _ => true))
  | arch, c :: cs, decoded, imputed =>
    let n := c.desVars.length
    match c.modify arch (decoded.take n) with
    | .error e => .error e
    | .ok (arch1, acts) =>
      match imputeSlots c.desVars acts (imputed.take n) with
      | .error e => .error e
      | .ok (slotVals, slotAct) =>
        match applyChoices arch1 cs (decoded.drop n) (imputed.drop n) with
        | .error e => .error e
        | .ok (archF, restVals, restAct) =>
          .ok (archF, slotVals ++ restVals, slotAct ++ restAct)

/-- `ArchitectingProblem.get_free_design_vector`: keep the slots of non-fixed
design variables (stated polymorphically; it is applied to the imputed
vector and to the `is_active` array). -/
def getFreeDesignVector (desVars : List DesignVariable) (vec : List α) : List α :=
  ((desVars.zip vec).filter (fun p => !p.1.is_fixed)).map (fun p => p.2)

/-- `ArchitectingProblem`: the choice list (stored sorted by construction
order, as `__init__` sorts it) and the number of optimization objectives,
constraints and metrics (used for the NaN-filled failure rows). -/
structure ArchitectingProblem where
  choices : List ArchitectingChoice
  nObj : Nat
  nCon : Nat
  nMet : Nat

/-- `sorted(choices, key=lambda choice: choice.get_construction_order())`
(Python's sort is stable; so is insertion sort). -/
def sortChoices (cs : List ArchitectingChoice) : List ArchitectingChoice :=
  cs.insertionSort (fun a b => a.order ≤ b.order)

/-- All declared design variables of the problem, in choice order. -/
def ArchitectingProblem.opt_des_vars (p : ArchitectingProblem) : List DesignVariable :=
  (p.choices.map (fun c => c.desVars)).flatten

/-- `ArchitectingProblem.generate_architecture`: decode the free design
vector, apply the choices in construction order to a fresh default turbojet
architecture, impute inactive/overridden slots, and return the architecture,
the imputed free design vector and the free `is_active` flags. -/
def ArchitectingProblem.generate_architecture (p : ArchitectingProblem)
    (design_vector : List EncVal) :
    Except EvalErr (TurbofanArchitecture × List EncVal × List Bool) :=
  match getFullDesignVector p.opt_des_vars design_vector with
  | .error e => .error e
  | .ok (fullVec, decodedVec) =>
    match applyChoices get_turbojet_architecture p.choices decodedVec fullVec with
    | .error e => .error e
    | .ok (arch, imputedFull, isActive) =>
      .ok (arch, getFreeDesignVector p.opt_des_vars imputedFull,
           getFreeDesignVector p.opt_des_vars isActive)

/-- A single objective/constraint/metric value; `nan` models the NaN entries
produced for failed evaluations. -/
inductive MetVal
  | nan
  | num (q : ℚ)
deriving DecidableEq

/-- One cached evaluation result: the tuple
`(imputed_design_vector, obj_values, con_values, met_values)` stored in
`ArchitectingProblem._results_cache`. -/
structure EvalResult where
  imputed : List EncVal
  objs : List MetVal
  cons : List MetVal
  mets : List MetVal
deriving DecidableEq

/-- The external evaluation machinery seen from `evaluate`:
`runEval arch imputed` stands for the `try:` block
(`evaluate_architecture` + `extract_metrics`), returning `none` when it
raises (solver divergence, metric extraction failure, ...); `saveIds` stands
for the id that `_save_results` returns for the n-th saved evaluation
(`None` when no results folder is configured). -/
structure EvalOracle where
  runEval : TurbofanArchitecture → List EncVal → Option (List MetVal × List MetVal × List MetVal)
  saveIds : Nat → Option Int

/-- Association-list lookup keyed by the imputed design vector, modelling the
dict `self._results_cache` (a new insertion shadows an older entry, like a
dict overwrite). -/
def cacheLookup (cache : List (List EncVal × α)) (key : List EncVal) : Option α :=
  match cache with
  | [] => none
  | (k, v) :: rest => if k = key then some v else cacheLookup rest key

/-- The mutable state of an `ArchitectingProblem` relevant to `evaluate`:
the results/eval-id caches (stored together, as both dicts are always
updated with the same keys), `_last_eval_id`, plus two instrumentation
counters: `nArchEvals` counts invocations of `evaluate_architecture` and
`nSaves` counts invocations of `_save_results`. -/
structure EvalState where
  cache : List (List EncVal × (EvalResult × Option Int))
  lastEvalId : Option Int
  nArchEvals : Nat
  nSaves : Nat
deriving DecidableEq

/-- The fresh state of a newly constructed `ArchitectingProblem`. -/
def evalState0 : EvalState := ⟨[], none, 0, 0⟩

/-- The body of `evaluate` after architecture generation: return the cached
result when the imputed vector was seen before; otherwise run the evaluation
(converting any failure inside the `try:` block into NaN-filled rows), save,
cache and return the result. -/
def evaluateCore (p : ArchitectingProblem) (oracle : EvalOracle) (s : EvalState)
    (arch : TurbofanArchitecture) (imputedVec : List EncVal) : EvalState × EvalResult :=
  match cacheLookup s.cache imputedVec with
  | some (r, evId) => ({ s with lastEvalId := evId }, r)
  | none =>
    let vals :=
      match oracle.runEval arch imputedVec with
      | some v => v
      | none =>
        (List.replicate p.nObj .nan, List.replicate p.nCon .nan, List.replicate p.nMet .nan)
    let evId := oracle.saveIds s.nSaves
    let r : EvalResult := ⟨imputedVec, vals.1, vals.2.1, vals.2.2⟩
    ({ cache := (imputedVec, (r, evId)) :: s.cache,
       lastEvalId := evId,
       nArchEvals := s.nArchEvals + 1,
       nSaves := s.nSaves + 1 }, r)

/-- `ArchitectingProblem.evaluate` (`problem.py` lines 161-196): generate the
architecture — errors in this phase propagate, since the `try:` starts only
afterwards — then run the cache-or-evaluate body (`evaluateCore`). -/
def ArchitectingProblem.evaluate (p : ArchitectingProblem) (oracle : EvalOracle)
    (s : EvalState) (design_vector : List EncVal) :
    Except EvalErr (EvalState × EvalResult) :=
  match p.generate_architecture design_vector with
  | .error e => .error e
  | .ok (arch, imputedVec, _isAct) => .ok (evaluateCore p oracle s arch imputedVec)

/-- The two-choice problem of `test_gearbox_choice._get_problem`
(`choices=[FanChoice(), GearboxChoice()]`), with one objective, one
constraint and one metric. -/
def fanGearProblem : ArchitectingProblem :=
  { choices := sortChoices [FanChoice.toChoice {}, GearboxChoice.toChoice {}],
    nObj := 1, nCon := 1, nMet := 1 }

/-- A problem with only the fan choice (`choices=[FanChoice()]`). -/
def fanProblem : ArchitectingProblem :=
  { choices := sortChoices [FanChoice.toChoice {}],
    nObj := 1, nCon := 1, nMet := 1 }

/-- One `BalanceComp.add_balance` call: the name of the free unknown it adds
(each call introduces exactly one unknown paired with one residual equation)
and its initial value. -/
structure BalanceVar where
  name : String
  val : ℚ
deriving DecidableEq

/-- An OpenMDAO `cycle.connect(src, dst)` wiring. -/
abbrev Conn := String × String

/-- `Balancer.balance_name` (`builder.py`). -/
def balance_name : String := "engine_balance"

/-- `ArchitectureCycle.inlet_el_name`: the name of the first `pyc.Inlet`
added to the cycle — i.e. of the first `Inlet` architecture element —
raising `RuntimeError('No inlet defined in cycle')` when there is none. -/
def cycleInletElName (arch : TurbofanArchitecture) : Except EvalErr String :=
  match arch.get_elements_by_type .Inlet with
  | [] => .error (.runtimeError "No inlet defined in cycle")
  | el :: _ => .ok el.name

/-- `cycle.get_element_names(pyc.Combustor, prefix_cycle_name=False)`: each
`Burner` element adds exactly one `pyc.Combustor`, in architecture order. -/
def cycleBurnerNames (arch : TurbofanArchitecture) : List String :=
  (arch.get_elements_by_type .Burner).map (fun e => e.name)

/-- `DesignBalancer` (`evaluation/analysis/balancer.py`): initial-guess
parameters with their declared defaults. -/
structure DesignBalancer where
  init_mass_flow : ℚ := 80
  init_far : ℚ := 17/1000
  init_turbine_pr : ℚ := 2
  init_extraction_bleed_frac : ℚ := 1/50
  init_gearbox_torque : ℚ := 32500
  init_mixer_er : ℚ := 5
deriving DecidableEq

/-- `DesignBalancer._balance_thrust`: one mass-flow unknown `W`, driving net
thrust to the target. -/
def DesignBalancer.balance_thrust (b : DesignBalancer) (arch : TurbofanArchitecture) :
    Except EvalErr (List BalanceVar × List Conn) :=
  match cycleInletElName arch with
  | .error e => .error e
  | .ok inletName =>
    .ok ([⟨"W", b.init_mass_flow⟩],
         [(balance_name ++ ".W", inletName ++ ".Fl_I:stat:W"),
          ("perf.Fn", balance_name ++ ".lhs:W")])

/-- `DesignBalancer._balance_extraction_bleed`: the `extraction_bleed`
unknown is added unconditionally (one `add_balance` call before the loop);
only its connections depend on which compressors have `offtake_bleed` set. -/
def DesignBalancer.balance_extraction_bleed (b : DesignBalancer)
    (arch : TurbofanArchitecture) : List BalanceVar × List Conn :=
  ([⟨"extraction_bleed", b.init_extraction_bleed_frac⟩],
   (((arch.get_elements_by_type .Compressor).filter (fun c => c.isOfftakeBleed)).map
      (fun c =>
        [(balance_name ++ ".extraction_bleed", c.name ++ ".bleed_offtake_atmos:frac_W"),
         (c.name ++ ".bleed_offtake_atmos:stat:W", balance_name ++ ".lhs:extraction_bleed")])).flatten)

/-- `DesignBalancer._balance_turbine_temp` (`balancer.py` lines 90-100): adds
the `FAR` unknown and connects it to `burners[0]` — the first combustor in
cycle order — with no check on the number of burners (`burners[0]` raises
`IndexError` only when there is no burner at all). -/
def DesignBalancer.balance_turbine_temp (b : DesignBalancer)
    (arch : TurbofanArchitecture) : Except EvalErr (List BalanceVar × List Conn) :=
  match cycleBurnerNames arch with
  | [] => .error .indexError
  | b0 :: _ =>
    .ok ([⟨"FAR", b.init_far⟩],
         [(balance_name ++ ".FAR", b0 ++ ".Fl_I:FAR"),
          (b0 ++ ".Fl_O:tot:T", balance_name ++ ".lhs:FAR")])

/-- `DesignBalancer._balance_shaft_power`: one pressure-ratio unknown per
`Turbine` element, driving its shaft's net power to zero (`turbine.shaft`
being unset would be an `AttributeError` in Python). -/
def balanceShaftPowerLoop (b : DesignBalancer) (arch : TurbofanArchitecture) :
    List ArchElement → Except EvalErr (List BalanceVar × List Conn)
  | [] => .ok ([], [])
  | t :: ts =>
    match arch.shaftOf t.name with
    | none => .error EvalErr.attributeError
    | some sh =>
      match balanceShaftPowerLoop b arch ts with
      | .error e => .error e
      | .ok (bals, conns) =>
        .ok (BalanceVar.mk (t.name ++ "_PR") b.init_turbine_pr :: bals,
             (balance_name ++ "." ++ t.name ++ "_PR", t.name ++ ".PR") ::
             (sh.name ++ ".pwr_net", balance_name ++ ".lhs:" ++ t.name ++ "_PR") :: conns)

/-- `DesignBalancer._balance_shaft_power`, as the loop over the turbines. -/
def DesignBalancer.balance_shaft_power (b : DesignBalancer)
    (arch : TurbofanArchitecture) : Except EvalErr (List BalanceVar × List Conn) :=
  balanceShaftPowerLoop b arch (arch.get_elements_by_type .Turbine)

/-- `DesignBalancer._balance_gearbox`: one torque unknown iff a `Gearbox`
element is present. -/
def DesignBalancer.balance_gearbox (b : DesignBalancer)
    (arch : TurbofanArchitecture) : List BalanceVar × List Conn :=
  if (arch.get_elements_by_type .Gearbox).length ≠ 0 then
    ([⟨"gb_trq", b.init_gearbox_torque⟩],
     [(balance_name ++ ".gb_trq", "gearbox.trq_base"),
      ("fan_shaft.pwr_net", balance_name ++ ".lhs:gb_trq")])
  else ([], [])

/-- `DesignBalancer._balance_mixer`: one entrainment-ratio unknown iff a
`Mixer` element is present. -/
def DesignBalancer.balance_mixer (b : DesignBalancer)
    (arch : TurbofanArchitecture) : List BalanceVar × List Conn :=
  if (arch.get_elements_by_type .Mixer).length ≠ 0 then
    ([⟨"BPR", b.init_mixer_er⟩],
     [(balance_name ++ ".BPR", "splitter.BPR"),
      ("mixer.ER", balance_name ++ ".lhs:BPR")])
  else ([], [])

/-- `DesignBalancer.apply`: the six balance groups, in source order. -/
def DesignBalancer.apply (b : DesignBalancer) (arch : TurbofanArchitecture) :
    Except EvalErr (List BalanceVar × List Conn) :=
  match b.balance_thrust arch with
  | .error e => .error e
  | .ok (b1, c1) =>
    match b.balance_turbine_temp arch with
    | .error e => .error e
    | .ok (b3, c3) =>
      match b.balance_shaft_power arch with
      | .error e => .error e
      | .ok (b4, c4) =>
        let (b2, c2) := b.balance_extraction_bleed arch
        let (b5, c5) := b.balance_gearbox arch
        let (b6, c6) := b.balance_mixer arch
        .ok (b1 ++ b2 ++ b3 ++ b4 ++ b5 ++ b6, c1 ++ c2 ++ c3 ++ c4 ++ c5 ++ c6)

/-- `OffDesignBalancer` (`evaluation/analysis/balancer.py`): initial-guess
parameters with their declared defaults. -/
structure OffDesignBalancer where
  init_mass_flow : ℚ := 90
  init_bpr : ℚ := 5
  init_far : ℚ := 17/1000
  init_shaft_rpm : ℚ := 5000
  init_extraction_bleed_frac : ℚ := 1/50
deriving DecidableEq

/-- The nozzle-feeding component kinds of
`OffDesignBalancer._iter_nozzle_balances`. -/
inductive NozComp
  | inletC
  | splitterC
  | mixerC
deriving DecidableEq

/-- One yielded tuple of `_iter_nozzle_balances`, from the enumerated pairing
of a nozzle-feeding component with a nozzle name:
`(component, element name, nozzle name, balance parameter name)` with the
parameter base name `W`/`BPR`/`ER` by component kind. -/
def nozzleBalanceTuple (y : Nat × (NozComp × String) × String) :
    NozComp × String × String × String :=
  let base := match y.2.1.1 with
    | NozComp.inletC => "W"
    | NozComp.splitterC => "BPR"
    | NozComp.mixerC => "ER"
  (y.2.1.1, y.2.1.2, y.2.2, base ++ "_" ++ toString y.1)

/-- `OffDesignBalancer._iter_nozzle_balances`: pairs each inlet, splitter and
mixer (in that order) with a nozzle, after checking that
inlets + splitters + mixers = nozzles (otherwise `RuntimeError`). -/
def iterNozzleBalances (arch : TurbofanArchitecture) :
    Except EvalErr (List (NozComp × String × String × String)) :=
  if ((arch.get_elements_by_type .Inlet).map (fun e => e.name)).length
      + ((arch.get_elements_by_type .Splitter).map (fun e => e.name)).length
      + ((arch.get_elements_by_type .Mixer).map (fun e => e.name)).length
      ≠ ((arch.get_elements_by_type .Nozzle).map (fun e => e.name)).length then
    .error (.runtimeError
      "Number of inlets + number of splitters + number of mixers should be same as number of nozzles")
  else
    .ok (((((arch.get_elements_by_type .Inlet).map (fun e => e.name)).map
            (fun n => (NozComp.inletC, n))
          ++ ((arch.get_elements_by_type .Splitter).map (fun e => e.name)).map
            (fun n => (NozComp.splitterC, n))
          ++ ((arch.get_elements_by_type .Mixer).map (fun e => e.name)).map
            (fun n => (NozComp.mixerC, n))).zip
        ((arch.get_elements_by_type .Nozzle).map (fun e => e.name))).enum.map
      nozzleBalanceTuple)

/-- The balance one `_balance_areas` iteration adds: a mass-flow unknown for
an inlet, a bypass-ratio unknown for a splitter, and nothing for a mixer. -/
def areaBalanceOf (b : OffDesignBalancer) (t : NozComp × String × String × String) :
    List BalanceVar :=
  match t.1 with
  | .inletC => [⟨t.2.2.2, b.init_mass_flow⟩]
  | .splitterC => [⟨t.2.2.2, b.init_bpr⟩]
  | .mixerC => []

/-- The connections one `_balance_areas` iteration makes: the balance drives
the inlet mass flow / splitter BPR, and for non-mixer components the nozzle
throat area is wired to the residual's left-hand side. -/
def areaConnsOf (t : NozComp × String × String × String) : List Conn :=
  (match t.1 with
   | NozComp.inletC => [(balance_name ++ "." ++ t.2.2.2, t.2.1 ++ ".Fl_I:stat:W")]
   | NozComp.splitterC => [(balance_name ++ "." ++ t.2.2.2, t.2.1 ++ ".BPR")]
   | NozComp.mixerC => []) ++
  (if t.1 ≠ NozComp.mixerC then
    [(t.2.2.1 ++ ".Throat:stat:area", balance_name ++ ".lhs:" ++ t.2.2.2)]
   else [])

/-- `OffDesignBalancer._balance_areas`: one area-matching unknown per inlet
(`W_i`) and per splitter (`BPR_i`); the mixer branch of the source loop adds
no balance and skips the nozzle-area connection. -/
def OffDesignBalancer.balance_areas (b : OffDesignBalancer)
    (arch : TurbofanArchitecture) : Except EvalErr (List BalanceVar × List Conn) :=
  match iterNozzleBalances arch with
  | .error e => .error e
  | .ok tups =>
    .ok ((tups.map (areaBalanceOf b)).flatten, (tups.map areaConnsOf).flatten)

/-- The cross-point coupling state of `ArchitectureMultiPointCycle`
(`builder.py` lines 395-411): the `balance_connected_des_od` marker set and
the accumulated `pyc_connect_des_od` wirings. -/
structure ArchitectureMultiPointCycle where
  balance_connected_des_od : List String
  des_od_connections : List Conn
deriving DecidableEq

/-- A fresh multi-point cycle (`balance_connected_des_od = set()`). -/
def mpCycle0 : ArchitectureMultiPointCycle := ⟨[], []⟩

/-- `OffDesignBalancer._connect_balance_des_od` (`balancer.py` lines
248-256): return immediately when the `'nozzle_area'` marker is present;
otherwise add the marker and wire each non-mixer off-design area residual's
target to the design-point nozzle throat area. -/
def OffDesignBalancer.connect_balance_des_od (arch : TurbofanArchitecture)
    (mp : ArchitectureMultiPointCycle) : Except EvalErr ArchitectureMultiPointCycle :=
  if "nozzle_area" ∈ mp.balance_connected_des_od then .ok mp
  else
    match iterNozzleBalances arch with
    | .error e => .error e
    | .ok tups =>
      let newConns := (tups.filter (fun t => t.1 ≠ NozComp.mixerC)).map
        (fun (_, _, nozName, param) =>
          (nozName ++ ".Throat:stat:area", balance_name ++ ".rhs:" ++ param))
      .ok ⟨mp.balance_connected_des_od ++ ["nozzle_area"],
           mp.des_od_connections ++ newConns⟩

/-- n-fold repetition of `connect_balance_des_od` on the same cycle. -/
def iterateConnectDesOd (arch : TurbofanArchitecture) :
    Nat → ArchitectureMultiPointCycle → Except EvalErr ArchitectureMultiPointCycle
  | 0, mp => .ok mp
  | n + 1, mp =>
    match OffDesignBalancer.connect_balance_des_od arch mp with
    | .error e => .error e
    | .ok mp1 => iterateConnectDesOd arch n mp1

/-- The architecture produced by applying `FanChoice._include_fan` to the
default turbojet with bypass ratio `bpr` and fan pressure ratio `fpr`. -/
def fanIncludedArch (bpr fpr : ℚ) : TurbofanArchitecture :=
  ⟨[ .inlet "inlet" (3/5) 1 (some "fan"),
     .compressor "fan" .AXI_5 (2289/5000) fpr (89/100) (some "splitter") false,
     .splitter "splitter" bpr (3/10) (9/20) (some "compressor") (some "bypass_nozzle"),
     .compressor "compressor" .AXI_5 (1/50) (27/2) (83/100) (some "burner") false,
     .burner "burner" .JET_A (1/50) (3/100) (some "turbine") true,
     .turbine "turbine" .LPT_2269 (2/5) (86/100) (some "nozzle"),
     .nozzle "nozzle" .CV (99/100) true none,
     .nozzle "bypass_nozzle" .CV (99/100) false none,
     .shaft "shaft" ["compressor", "turbine", "fan"] 8070 0 false,
     .bleedEl "bleed" ]⟩

/-- A turbojet with an inter-turbine burner appended (as `ITBChoice` builds):
an architecture with two combustors. -/
def twoBurnerArch : TurbofanArchitecture :=
  ⟨[ .inlet "inlet" (3/5) 1 (some "compressor"),
     .compressor "compressor" .AXI_5 (1/50) (27/2) (83/100) (some "burner") false,
     .burner "burner" .JET_A (1/50) (3/100) (some "turbine") true,
     .turbine "turbine" .LPT_2269 (2/5) (86/100) (some "itb"),
     .burner "itb" .JET_A (1/50) (3/100) (some "nozzle") false,
     .nozzle "nozzle" .CD (99/100) true none,
     .shaft "shaft" ["compressor", "turbine"] 8070 0 false ]⟩

/-- An architecture containing a mixer that satisfies the off-design
area-balancing precondition (1 inlet + 0 splitters + 1 mixer = 2 nozzles). -/
def mixArch : TurbofanArchitecture :=
  ⟨[ .inlet "inlet" (3/5) 1 (some "compressor"),
     .compressor "compressor" .AXI_5 (1/50) (27/2) (83/100) (some "burner") false,
     .burner "burner" .JET_A (1/50) (3/100) (some "turbine") true,
     .turbine "turbine" .LPT_2269 (2/5) (86/100) (some "mixer"),
     .mixer "mixer" (3/10) (some "turbine") (some "inlet") (some "nozzle"),
     .nozzle "nozzle" .CD (99/100) true none,
     .nozzle "nozzle_2" .CV (99/100) false none,
     .shaft "shaft" ["compressor", "turbine"] 8070 0 false ]⟩

/-- A turbojet with its nozzle duplicated: the inlet/splitter/mixer count no
longer matches the nozzle count. -/
def badCountArch : TurbofanArchitecture :=
  ⟨get_turbojet_architecture.elements ++ [.nozzle "nozzle_2" .CV (99/100) false none]⟩

/-- An architecting choice whose mutation hits an unsupported graph shape and
raises (as `BleedChoice._include_bleed_inter` raises
`RuntimeError('Unexpected target number!')`); a concrete input for the
error-propagation statements about `evaluate`. -/
def failingChoice : ArchitectingChoice :=
  ⟨[.cont ⟨"x", (0, 1), none⟩], 0,
   fun _ _ => .error (.runtimeError "Unexpected target number!")⟩

/-- A problem whose single choice fails during architecture generation. -/
def failingProblem : ArchitectingProblem :=
  { choices := sortChoices [failingChoice], nObj := 1, nCon := 1, nMet := 1 }

/-- An oracle whose evaluation always raises (solver divergence) and that has
no results folder configured (`_save_results` returns `None`). -/
def oracleNone : EvalOracle := ⟨fun _ _ => none, fun _ => none⟩

/-- An oracle returning fixed finite metric values. -/
def oracleConst : EvalOracle :=
  ⟨fun _ _ => some ([.num 1], [.num 2], [.num 3]), fun _ => none⟩

/-- The multi-point coupling state after wiring the turbojet's nozzle-area
coupling once. -/
def mpW : ArchitectureMultiPointCycle :=
  ⟨["nozzle_area"], [("nozzle.Throat:stat:area", balance_name ++ ".rhs:W_0")]⟩

/-- Numeric reading of an encoded value (Python ints and floats compare
numerically equal). -/
def encValQ : EncVal → ℚ
  | .int i => i
  | .real q => q

/-- Decidable equality for `Except` results, used to evaluate the embedded
functions on concrete inputs. -/
instance {ε α : Type} [DecidableEq ε] [DecidableEq α] : DecidableEq (Except ε α) := fun a c =>
  match a, c with
  | .error e, .error f =>
    if h : e = f then .isTrue (by rw [h]) else .isFalse (by simp [h])
  | .error _, .ok _ => .isFalse (by simp)
  | .ok _, .error _ => .isFalse (by simp)
  | .ok x, .ok y =>
    if h : x = y then .isTrue (by rw [h]) else .isFalse (by simp [h])

/-- The cache-or-evaluate body is stable: re-running it from the state it
produced returns the same state and result (the produced state always has a
cache entry for the imputed vector). -/
theorem evaluateCore_stable (p : ArchitectingProblem) (oracle : EvalOracle) (s : EvalState)
    (arch : TurbofanArchitecture) (imp : List EncVal) (s1 : EvalState) (r1 : EvalResult)
    (h : evaluateCore p oracle s arch imp = (s1, r1)) :
    evaluateCore p oracle s1 arch imp = (s1, r1) := by
  unfold evaluateCore at h ⊢
  cases hl : cacheLookup s.cache imp with
  | some v =>
    obtain ⟨r, evId⟩ := v
    rw [hl] at h
    simp only [Prod.mk.injEq] at h
    obtain ⟨hs, hr⟩ := h
    subst hs; subst hr
    simp [hl]
  | none =>
    rw [hl] at h
    simp only [Prod.mk.injEq] at h
    obtain ⟨hs, hr⟩ := h
    subst hs; subst hr
    simp [cacheLookup]

/-- Errors raised while generating the architecture escape `evaluate`: the
`try:` block of `problem.py` starts only after `generate_architecture`. -/
theorem evaluate_error_of_generate_error (p : ArchitectingProblem) (oracle : EvalOracle)
    (s : EvalState) (dv : List EncVal) (e : EvalErr)
    (h : p.generate_architecture dv = .error e) :
    p.evaluate oracle s dv = .error e := by
  unfold ArchitectingProblem.evaluate
  rw [h]

/-- Unfolding equation of `getFullDesignVector` on a non-empty variable list. -/
theorem getFullDesignVector_cons (dvar : DesignVariable) (dvs : List DesignVariable)
    (free : List EncVal) :
    getFullDesignVector (dvar :: dvs) free =
      match dvar.is_fixed with
      | true =>
        match dvar.get_fixed_value with
        | .error e => .error e
        | .ok fixedVal =>
          match dvar.encode fixedVal with
          | .error e => .error e
          | .ok enc =>
            match getFullDesignVector dvs free with
            | .error e => .error e
            | .ok (fs, ds) => .ok (enc :: fs, fixedVal :: ds)
      | false =>
        match free with
        | [] => .error .indexError
        | v :: vrest =>
          match dvar.decode v with
          | .error e => .error e
          | .ok d =>
            match getFullDesignVector dvs vrest with
            | .error e => .error e
            | .ok (fs, ds) => .ok (v :: fs, d :: ds) := rfl

/-- A decode error on the first (free) design variable aborts
`get_full_design_vector` with that error. -/
theorem getFull_cons_free_err (dvar : DesignVariable) (dvs : List DesignVariable)
    (v : EncVal) (free : List EncVal) (e : EvalErr)
    (hfix : dvar.is_fixed = false) (hd : dvar.decode v = .error e) :
    getFullDesignVector (dvar :: dvs) (v :: free) = .error e := by
  rw [getFullDesignVector_cons, hfix]
  show (match dvar.decode v with
    | Except.error e => (Except.error e : Except EvalErr (List EncVal × List DecVal))
    | Except.ok d =>
      match getFullDesignVector dvs free with
      | Except.error e => Except.error e
      | Except.ok (fs, ds) => Except.ok (v :: fs, d :: ds)) = Except.error e
  rw [hd]

/-- Decode errors surface from `generate_architecture`. -/
theorem generate_err_of_getFull_err (p : ArchitectingProblem) (dv : List EncVal) (e : EvalErr)
    (h : getFullDesignVector p.opt_des_vars dv = .error e) :
    p.generate_architecture dv = .error e := by
  unfold ArchitectingProblem.generate_architecture
  rw [h]

/-- `IntegerDesignVariable.decode` raises `IndexError` on a non-negative
index at or beyond the value-list length. -/
theorem decode_ofNat_big (d : IntegerDesignVariable) (n : Nat)
    (hn : d.values.length ≤ n) :
    d.decode (Int.ofNat n) = .error .indexError := by
  unfold IntegerDesignVariable.decode
  rw [Int.ofNat_eq_natCast]
  rw [if_neg (by omega)]
  have hg : d.values.get? ((n : Int)).toNat = none := by
    rw [List.get?_eq_none]
    omega
  rw [hg]

/-- `IntegerDesignVariable.decode` raises `IndexError` on a negative index. -/
theorem decode_negSucc (d : IntegerDesignVariable) (n : Nat) :
    d.decode (Int.negSucc n) = .error .indexError := by
  unfold IntegerDesignVariable.decode
  rw [if_pos (Int.negSucc_lt_zero n)]

/-- `generate_architecture` of the fan-choice problem on a vector whose
`include_fan` slot decodes to `False`: the default turbojet is returned and
the `bpr`/`fpr` slots are imputed with the bound midpoints. -/
theorem fan_generate_int0 (v1 v2 : EncVal) (rest : List EncVal) :
    fanProblem.generate_architecture (.int 0 :: v1 :: v2 :: rest) =
      .ok (get_turbojet_architecture,
           [.int 0, .real ((2 + 25/2)/2), .real ((11/10 + 9/5)/2)],
           [true, false, false]) := rfl

/-- `generate_architecture` of the fan-choice problem on a vector whose
`include_fan` slot decodes to `True`: the fan architecture is built and all
slots stay active. -/
theorem fan_generate_int1 (v1 v2 : EncVal) (rest : List EncVal) :
    fanProblem.generate_architecture (.int 1 :: v1 :: v2 :: rest) =
      .ok (fanIncludedArch (encValQ v1) (encValQ v2), [.int 1, v1, v2], [true, true, true]) := by
  cases v1 <;> cases v2 <;> rfl

/-- Shape analysis: every successful `generate_architecture` run of the
fan-choice problem comes from a vector starting with index 0 or 1, and its
output is fully determined by that index and the two continuous slots. -/
theorem fan_generate_ok_cases (dv : List EncVal)
    (x : TurbofanArchitecture × List EncVal × List Bool)
    (h : fanProblem.generate_architecture dv = .ok x) :
    ∃ v1 v2 rest,
      (dv = .int 0 :: v1 :: v2 :: rest ∧
        x = (get_turbojet_architecture,
             [.int 0, .real ((2 + 25/2)/2), .real ((11/10 + 9/5)/2)], [true, false, false])) ∨
      (dv = .int 1 :: v1 :: v2 :: rest ∧
        x = (fanIncludedArch (encValQ v1) (encValQ v2), [.int 1, v1, v2], [true, true, true])) := by
  rcases dv with _ | ⟨v0, tail⟩
  · exact Except.noConfusion h
  cases v0 with
  | real q => exact Except.noConfusion h
  | int i =>
    cases i with
    | negSucc n =>
      have hge : fanProblem.generate_architecture (EncVal.int (Int.negSucc n) :: tail) =
          .error .indexError :=
        generate_err_of_getFull_err fanProblem (EncVal.int (Int.negSucc n) :: tail)
          EvalErr.indexError
          (show getFullDesignVector fanProblem.opt_des_vars
              (EncVal.int (Int.negSucc n) :: tail) = Except.error EvalErr.indexError from
            getFull_cons_free_err _ _ _ _ _ rfl
              (show DesignVariable.decode
                  (DesignVariable.disc ⟨"include_fan", [.b false, .b true], none⟩)
                  (EncVal.int (Int.negSucc n)) = Except.error EvalErr.indexError from
                decode_negSucc ⟨"include_fan", [.b false, .b true], none⟩ n))
      rw [hge] at h
      exact Except.noConfusion h
    | ofNat n =>
      match n with
      | 0 =>
        have e0 : Int.ofNat 0 = (0 : Int) := rfl
        rw [e0] at h
        rcases tail with _ | ⟨v1, tail2⟩
        · exact Except.noConfusion h
        rcases tail2 with _ | ⟨v2, rest⟩
        · exact Except.noConfusion h
        rw [fan_generate_int0 v1 v2 rest] at h
        injection h with h'
        exact ⟨v1, v2, rest, Or.inl ⟨by rw [e0], h'.symm⟩⟩
      | 1 =>
        have e1 : Int.ofNat 1 = (1 : Int) := rfl
        rw [e1] at h
        rcases tail with _ | ⟨v1, tail2⟩
        · exact Except.noConfusion h
        rcases tail2 with _ | ⟨v2, rest⟩
        · exact Except.noConfusion h
        rw [fan_generate_int1 v1 v2 rest] at h
        injection h with h'
        exact ⟨v1, v2, rest, Or.inr ⟨by rw [e1], h'.symm⟩⟩
      | (m+2) =>
        have hge : fanProblem.generate_architecture (EncVal.int (Int.ofNat (m+2)) :: tail) =
            .error .indexError :=
          generate_err_of_getFull_err fanProblem (EncVal.int (Int.ofNat (m+2)) :: tail)
            EvalErr.indexError
            (show getFullDesignVector fanProblem.opt_des_vars
                (EncVal.int (Int.ofNat (m+2)) :: tail) = Except.error EvalErr.indexError from
              getFull_cons_free_err _ _ _ _ _ rfl
                (show DesignVariable.decode
                    (DesignVariable.disc ⟨"include_fan", [.b false, .b true], none⟩)
                    (EncVal.int (Int.ofNat (m+2))) = Except.error EvalErr.indexError from
                  decode_ofNat_big ⟨"include_fan", [.b false, .b true], none⟩ (m+2)
                    (by show 2 ≤ m + 2; omega)))
        rw [hge] at h
        exact Except.noConfusion h

/-- `_balance_thrust` always contributes exactly the mass-flow unknown `W`. -/
theorem balance_thrust_ok_fst (b : DesignBalancer) (arch : TurbofanArchitecture)
    (bals : List BalanceVar) (conns : List Conn)
    (h : b.balance_thrust arch = .ok (bals, conns)) : bals = [⟨"W", b.init_mass_flow⟩] := by
  unfold DesignBalancer.balance_thrust at h
  cases hi : cycleInletElName arch with
  | error e => rw [hi] at h; exact Except.noConfusion h
  | ok nm =>
    rw [hi] at h
    injection h with h'
    injection h' with h1 h2
    exact h1.symm

/-- `_balance_turbine_temp` always contributes exactly the fuel-air-ratio
unknown `FAR` when it succeeds. -/
theorem balance_turbine_temp_ok_fst (b : DesignBalancer) (arch : TurbofanArchitecture)
    (bals : List BalanceVar) (conns : List Conn)
    (h : b.balance_turbine_temp arch = .ok (bals, conns)) : bals = [⟨"FAR", b.init_far⟩] := by
  unfold DesignBalancer.balance_turbine_temp at h
  cases hb : cycleBurnerNames arch with
  | nil => rw [hb] at h; exact Except.noConfusion h
  | cons b0 rest =>
    rw [hb] at h
    injection h with h'
    injection h' with h1 h2
    exact h1.symm

/-- The shaft-power loop contributes one `<turbine>_PR` unknown per turbine,
in order. -/
theorem balanceShaftPowerLoop_names (b : DesignBalancer) (arch : TurbofanArchitecture) :
    ∀ (ts : List ArchElement) (bals : List BalanceVar) (conns : List Conn),
      balanceShaftPowerLoop b arch ts = .ok (bals, conns) →
      bals.map (fun x => x.name) = ts.map (fun t => t.name ++ "_PR") := by
  intro ts
  induction ts with
  | nil =>
    intro bals conns h
    injection h with h'
    injection h' with h1 h2
    rw [← h1]
    rfl
  | cons t ts ih =>
    intro bals conns h
    unfold balanceShaftPowerLoop at h
    cases hs : arch.shaftOf t.name with
    | none => rw [hs] at h; exact Except.noConfusion h
    | some sh =>
      rw [hs] at h
      cases hr : balanceShaftPowerLoop b arch ts with
      | error e => rw [hr] at h; exact Except.noConfusion h
      | ok pr =>
        obtain ⟨bals2, conns2⟩ := pr
        rw [hr] at h
        injection h with h'
        injection h' with h1 h2
        rw [← h1, List.map_cons, List.map_cons, ih bals2 conns2 hr]

/-- `_balance_gearbox` contributes the torque unknown `gb_trq` exactly when a
gearbox is present. -/
theorem balance_gearbox_fst (b : DesignBalancer) (arch : TurbofanArchitecture) :
    (b.balance_gearbox arch).1 =
      if (arch.get_elements_by_type .Gearbox).length ≠ 0 then
        [⟨"gb_trq", b.init_gearbox_torque⟩] else [] := by
  unfold DesignBalancer.balance_gearbox
  split <;> rfl

/-- `_balance_mixer` contributes the entrainment-ratio unknown `BPR` exactly
when a mixer is present. -/
theorem balance_mixer_fst (b : DesignBalancer) (arch : TurbofanArchitecture) :
    (b.balance_mixer arch).1 =
      if (arch.get_elements_by_type .Mixer).length ≠ 0 then
        [⟨"BPR", b.init_mixer_er⟩] else [] := by
  unfold DesignBalancer.balance_mixer
  split <;> rfl

/-- Each `_balance_areas` iteration adds one unknown for an inlet or splitter
tuple, none for a mixer tuple. -/
theorem areaBals_flatten_len (b : OffDesignBalancer) :
    ∀ tups : List (NozComp × String × String × String),
      ((tups.map (areaBalanceOf b)).flatten).length
        = tups.countP (fun t => t.1 ≠ NozComp.mixerC) := by
  intro tups
  induction tups with
  | nil => rfl
  | cons t ts ih =>
    simp only [List.map_cons, List.flatten_cons, List.length_append, ih, List.countP_cons]
    obtain ⟨c, el, noz, par⟩ := t
    cases c <;> simp [areaBalanceOf] <;> omega

/-- Enumerating and zipping with the nozzle list preserves how many tuples
are non-mixer. -/
theorem enumFrom_zip_countP :
    ∀ (l : List (NozComp × String)) (noz : List String) (k : Nat), l.length = noz.length →
      (((l.zip noz).enumFrom k).map nozzleBalanceTuple).countP
          (fun t => t.1 ≠ NozComp.mixerC)
        = l.countP (fun c => c.1 ≠ NozComp.mixerC) := by
  intro l
  induction l with
  | nil => intro noz k h; rfl
  | cons c l ih =>
    intro noz k h
    cases noz with
    | nil => simp at h
    | cons nz nozs =>
      simp only [List.zip_cons_cons, List.enumFrom, List.map_cons, List.countP_cons,
        nozzleBalanceTuple]
      rw [show List.zipWith Prod.mk l nozs = l.zip nozs from rfl,
        ih nozs (k+1) (by simpa using h)]

/-- Counting non-mixer entries in a constant-tagged name list. -/
theorem countP_tag (c : NozComp) (names : List String) :
    (names.map (fun n => (c, n))).countP (fun t => t.1 ≠ NozComp.mixerC)
      = if c ≠ NozComp.mixerC then names.length else 0 := by
  induction names with
  | nil => simp
  | cons a l ih =>
    simp only [List.map_cons, List.countP_cons, ih]
    split <;> simp_all

/-- C1: evaluating the same design vector a second time from the state the
first call produced returns the same state and the same result record
(imputed vector and objective/constraint/metric values); in particular the
cache is unchanged and the architecture-evaluation counter does not move, so
no new `evaluate_architecture` run happens. -/
theorem C1_evaluate_cached_idempotent (p : ArchitectingProblem) (oracle : EvalOracle)
    (s0 : EvalState) (dv : List EncVal) (s1 : EvalState) (r1 : EvalResult)
    (h : p.evaluate oracle s0 dv = .ok (s1, r1)) :
    p.evaluate oracle s1 dv = .ok (s1, r1) := by
  unfold ArchitectingProblem.evaluate at h ⊢
  cases hg : p.generate_architecture dv with
  | error e => rw [hg] at h; simp at h
  | ok t =>
    obtain ⟨arch, imp, act⟩ := t
    rw [hg] at h
    have hc : evaluateCore p oracle s0 arch imp = (s1, r1) := by
      have h' : Except.ok (ε := EvalErr) (evaluateCore p oracle s0 arch imp) = .ok (s1, r1) := h
      injection h'
    show Except.ok (evaluateCore p oracle s1 arch imp) = .ok (s1, r1)
    rw [evaluateCore_stable p oracle s0 arch imp s1 r1 hc]

theorem C1_witness :
    fanProblem.evaluate oracleConst evalState0 [.int 1, .real 5, .real 2] =
      .ok (⟨[([.int 1, .real 5, .real 2],
              (⟨[.int 1, .real 5, .real 2], [.num 1], [.num 2], [.num 3]⟩, none))],
            none, 1, 1⟩,
           ⟨[.int 1, .real 5, .real 2], [.num 1], [.num 2], [.num 3]⟩) ∧
    fanProblem.evaluate oracleConst
      ⟨[([.int 1, .real 5, .real 2],
          (⟨[.int 1, .real 5, .real 2], [.num 1], [.num 2], [.num 3]⟩, none))],
        none, 1, 1⟩ [.int 1, .real 5, .real 2] =
      .ok (⟨[([.int 1, .real 5, .real 2],
              (⟨[.int 1, .real 5, .real 2], [.num 1], [.num 2], [.num 3]⟩, none))],
            none, 1, 1⟩,
           ⟨[.int 1, .real 5, .real 2], [.num 1], [.num 2], [.num 3]⟩) := by
  refine ⟨rfl, ?_⟩
  exact C1_evaluate_cached_idempotent fanProblem oracleConst evalState0
    [.int 1, .real 5, .real 2] _ _ rfl

/-- C2: two raw design vectors of the fan-choice problem that both generate
successfully and agree on every slot whose activity flag comes out `true`
produce the same architecture, the same imputed vector, and the same
activity information; inactive slots (`bpr`, `fpr` when `include_fan`
decodes to `False`) are canonicalized away by imputation. -/
theorem C2_canonicalization (dv1 dv2 : List EncVal) (a1 a2 : TurbofanArchitecture)
    (i1 i2 : List EncVal) (t1 t2 : List Bool)
    (h1 : fanProblem.generate_architecture dv1 = .ok (a1, i1, t1))
    (h2 : fanProblem.generate_architecture dv2 = .ok (a2, i2, t2))
    (hagree : ∀ k, t1.get? k = some true → dv1.get? k = dv2.get? k) :
    a1 = a2 ∧ i1 = i2 ∧ t1 = t2 := by
  obtain ⟨v1, v2, rest, hc1⟩ := fan_generate_ok_cases dv1 (a1, i1, t1) h1
  obtain ⟨w1, w2, wrest, hc2⟩ := fan_generate_ok_cases dv2 (a2, i2, t2) h2
  rcases hc1 with ⟨hdv1, hx1⟩ | ⟨hdv1, hx1⟩ <;> rcases hc2 with ⟨hdv2, hx2⟩ | ⟨hdv2, hx2⟩ <;>
    injection hx1 with ha1 hit1 <;> injection hit1 with hi1 ht1 <;>
    injection hx2 with ha2 hit2 <;> injection hit2 with hi2 ht2
  · subst ha1; subst hi1; subst ht1; subst ha2; subst hi2; subst ht2
    exact ⟨rfl, rfl, rfl⟩
  · exfalso
    have h0 := hagree 0 (by rw [ht1]; rfl)
    rw [hdv1, hdv2] at h0
    simp only [List.get?] at h0
    injection h0 with h0'
    injection h0' with h0''
    omega
  · exfalso
    have h0 := hagree 0 (by rw [ht1]; rfl)
    rw [hdv1, hdv2] at h0
    simp only [List.get?] at h0
    injection h0 with h0'
    injection h0' with h0''
    omega
  · have hv1 : v1 = w1 := by
      have hk := hagree 1 (by rw [ht1]; rfl)
      rw [hdv1, hdv2] at hk
      simp only [List.get?] at hk
      injection hk
    have hv2 : v2 = w2 := by
      have hk := hagree 2 (by rw [ht1]; rfl)
      rw [hdv1, hdv2] at hk
      simp only [List.get?] at hk
      injection hk
    subst hv1; subst hv2
    subst ha1; subst hi1; subst ht1; subst ha2; subst hi2; subst ht2
    exact ⟨rfl, rfl, rfl⟩

theorem C2_witness :
    (fanProblem.generate_architecture [.int 0, .real 5, .real 2]).map (fun y => (y.1, y.2.1)) =
    (fanProblem.generate_architecture [.int 0, .real 7, .real 1]).map (fun y => (y.1, y.2.1)) := by
  have h1 : fanProblem.generate_architecture [.int 0, .real 5, .real 2] =
      .ok (get_turbojet_architecture,
           [.int 0, .real ((2 + 25/2)/2), .real ((11/10 + 9/5)/2)], [true, false, false]) := rfl
  have h2 : fanProblem.generate_architecture [.int 0, .real 7, .real 1] =
      .ok (get_turbojet_architecture,
           [.int 0, .real ((2 + 25/2)/2), .real ((11/10 + 9/5)/2)], [true, false, false]) := rfl
  have hc := C2_canonicalization _ _ _ _ _ _ _ _ h1 h2 (by
    intro k hk
    match k with
    | 0 => rfl
    | 1 => exact absurd hk (by simp)
    | 2 => exact absurd hk (by simp)
    | (n+3) => exact absurd hk (by simp))
  rw [h1, h2]

/-- C3 (amended): on every architecture where it succeeds, `DesignBalancer.apply`
adds exactly these unknowns, in source order: the inlet mass-flow unknown `W`,
the extraction-bleed unknown `extraction_bleed` (added unconditionally, even
when no compressor is a designated extraction-bleed compressor), the
fuel-air-ratio unknown `FAR`, one `<turbine>_PR` unknown per turbine, the
torque unknown `gb_trq` iff a gearbox is present, and the entrainment-ratio
unknown `BPR` iff a mixer is present; so the unknown count is
3 + #turbines + [gearbox] + [mixer]. -/
theorem C3_design_balancer_unknowns (b : DesignBalancer) (arch : TurbofanArchitecture)
    (bals : List BalanceVar) (conns : List Conn)
    (h : b.apply arch = .ok (bals, conns)) :
    bals.map (fun x => x.name) =
      "W" :: "extraction_bleed" :: "FAR" ::
        ((arch.get_elements_by_type .Turbine).map (fun t => t.name ++ "_PR")
          ++ (if (arch.get_elements_by_type .Gearbox).length ≠ 0 then ["gb_trq"] else [])
          ++ (if (arch.get_elements_by_type .Mixer).length ≠ 0 then ["BPR"] else [])) ∧
    bals.length = 3 + (arch.get_elements_by_type .Turbine).length
      + (if (arch.get_elements_by_type .Gearbox).length ≠ 0 then 1 else 0)
      + (if (arch.get_elements_by_type .Mixer).length ≠ 0 then 1 else 0) := by
  unfold DesignBalancer.apply at h
  cases h1 : b.balance_thrust arch with
  | error e => rw [h1] at h; exact Except.noConfusion h
  | ok p1 =>
  obtain ⟨b1, c1⟩ := p1
  cases h3 : b.balance_turbine_temp arch with
  | error e => rw [h1, h3] at h; exact Except.noConfusion h
  | ok p3 =>
  obtain ⟨b3, c3⟩ := p3
  cases h4 : b.balance_shaft_power arch with
  | error e => rw [h1, h3, h4] at h; exact Except.noConfusion h
  | ok p4 =>
  obtain ⟨b4, c4⟩ := p4
  rw [h1, h3, h4] at h
  have h' : Except.ok (ε := EvalErr)
      (b1 ++ (b.balance_extraction_bleed arch).1 ++ b3 ++ b4 ++ (b.balance_gearbox arch).1
        ++ (b.balance_mixer arch).1,
       c1 ++ (b.balance_extraction_bleed arch).2 ++ c3 ++ c4 ++ (b.balance_gearbox arch).2
        ++ (b.balance_mixer arch).2) = .ok (bals, conns) := h
  injection h' with h''
  injection h'' with hb hc
  have hmap : bals.map (fun x => x.name) =
      "W" :: "extraction_bleed" :: "FAR" ::
        ((arch.get_elements_by_type .Turbine).map (fun t => t.name ++ "_PR")
          ++ (if (arch.get_elements_by_type .Gearbox).length ≠ 0 then ["gb_trq"] else [])
          ++ (if (arch.get_elements_by_type .Mixer).length ≠ 0 then ["BPR"] else [])) := by
    rw [← hb]
    rw [balance_thrust_ok_fst b arch b1 c1 h1, balance_turbine_temp_ok_fst b arch b3 c3 h3]
    rw [balance_gearbox_fst, balance_mixer_fst]
    simp only [List.map_append, List.singleton_append,
      balanceShaftPowerLoop_names b arch (arch.get_elements_by_type .Turbine) b4 c4 h4]
    have he : (b.balance_extraction_bleed arch).1 = [⟨"extraction_bleed",
        b.init_extraction_bleed_frac⟩] := rfl
    rw [he]
    simp [apply_ite (List.map (fun (x : BalanceVar) => x.name))]
  refine ⟨hmap, ?_⟩
  have hlen := congrArg List.length hmap
  simp only [List.length_map, List.length_cons, List.length_append,
    apply_ite List.length, List.length_nil, Nat.zero_add] at hlen
  omega

theorem C3_counterexample :
    ((get_turbojet_architecture.get_elements_by_type .Compressor).filter
      (fun c => c.isOfftakeBleed)).length = 0 ∧
    (DesignBalancer.apply {} get_turbojet_architecture).map
      (fun r => (r.1.filter (fun x => x.name = "extraction_bleed")).length) = .ok 1 :=
  ⟨rfl, rfl⟩

theorem C3_witness :
    (DesignBalancer.apply {} get_turbojet_architecture).map
        (fun r => r.1.map (fun x => x.name)) =
      .ok ("W" :: "extraction_bleed" :: "FAR" ::
        (((get_turbojet_architecture.get_elements_by_type .Turbine).map
            (fun t => t.name ++ "_PR"))
          ++ (if (get_turbojet_architecture.get_elements_by_type .Gearbox).length ≠ 0
              then ["gb_trq"] else [])
          ++ (if (get_turbojet_architecture.get_elements_by_type .Mixer).length ≠ 0
              then ["BPR"] else []))) := by
  have h : DesignBalancer.apply {} get_turbojet_architecture =
      .ok ([⟨"W", 80⟩, ⟨"extraction_bleed", 1/50⟩, ⟨"FAR", 17/1000⟩, ⟨"turbine_PR", 2⟩],
           [("engine_balance.W", "inlet.Fl_I:stat:W"), ("perf.Fn", "engine_balance.lhs:W"),
            ("engine_balance.FAR", "burner.Fl_I:FAR"),
            ("burner.Fl_O:tot:T", "engine_balance.lhs:FAR"),
            ("engine_balance.turbine_PR", "turbine.PR"),
            ("shaft.pwr_net", "engine_balance.lhs:turbine_PR")]) := rfl
  have hm := (C3_design_balancer_unknowns {} get_turbojet_architecture _ _ h).1
  rw [h]
  exact congrArg Except.ok hm

/-- C4 (amended): failures inside the `try:` block of `evaluate` (the
evaluation oracle raising, i.e. solver divergence or metric extraction
errors) are converted to NaN-filled objective/constraint/metric rows; but an
error raised during `generate_architecture` — where a choice's mutation
meets an unsupported graph shape — happens before the `try:` block and
propagates out of `evaluate` instead of being converted to NaN rows. -/
theorem C4_error_handling (p q : ArchitectingProblem) (oracle oracle2 : EvalOracle)
    (s s2 : EvalState) (dv dv2 : List EncVal)
    (arch : TurbofanArchitecture) (imp : List EncVal) (act : List Bool) (e : EvalErr)
    (hg : p.generate_architecture dv = .ok (arch, imp, act))
    (hl : cacheLookup s.cache imp = none)
    (hrun : oracle.runEval arch imp = none)
    (hge : q.generate_architecture dv2 = .error e) :
    (p.evaluate oracle s dv).map (fun x => x.2) =
      .ok ⟨imp, List.replicate p.nObj .nan, List.replicate p.nCon .nan,
           List.replicate p.nMet .nan⟩ ∧
    q.evaluate oracle2 s2 dv2 = .error e := by
  constructor
  · unfold ArchitectingProblem.evaluate
    rw [hg]
    show (Except.ok (evaluateCore p oracle s arch imp)).map (fun x => x.2) = _
    unfold evaluateCore
    rw [hl, hrun]
    rfl
  · exact evaluate_error_of_generate_error q oracle2 s2 dv2 e hge

theorem C4_counterexample :
    failingProblem.evaluate oracleNone evalState0 [.real 0] =
      .error (.runtimeError "Unexpected target number!") := rfl

theorem C4_witness :
    (fanProblem.evaluate oracleNone evalState0 [.int 1, .real 5, .real 2]).map (fun x => x.2) =
      .ok ⟨[.int 1, .real 5, .real 2], [.nan], [.nan], [.nan]⟩ ∧
    failingProblem.evaluate oracleNone evalState0 [.real 1] =
      .error (.runtimeError "Unexpected target number!") :=
  C4_error_handling fanProblem failingProblem oracleNone oracleNone evalState0 evalState0
    [.int 1, .real 5, .real 2] [.real 1] (fanIncludedArch 5 2) [.int 1, .real 5, .real 2]
    [true, true, true] (.runtimeError "Unexpected target number!") rfl rfl rfl rfl

/-- C5 (amended): `_balance_turbine_temp` performs no multiple-burner check:
whenever the architecture has at least one burner in cycle order, it
succeeds and silently connects the FAR/turbine-inlet-temperature balance to
the FIRST burner (`get_element_names(pyc.Combustor)[0]`), even when several
main burners exist. -/
theorem C5_turbine_temp_first_burner (b : DesignBalancer) (arch : TurbofanArchitecture)
    (b0 : String) (rest : List String) (h : cycleBurnerNames arch = b0 :: rest) :
    b.balance_turbine_temp arch =
      .ok ([⟨"FAR", b.init_far⟩],
           [(balance_name ++ ".FAR", b0 ++ ".Fl_I:FAR"),
            (b0 ++ ".Fl_O:tot:T", balance_name ++ ".lhs:FAR")]) := by
  unfold DesignBalancer.balance_turbine_temp
  rw [h]

theorem C5_counterexample :
    (cycleBurnerNames twoBurnerArch).length = 2 ∧
    (DesignBalancer.apply {} twoBurnerArch).map
      (fun r => r.2.contains (balance_name ++ ".FAR", "burner.Fl_I:FAR")) = .ok true :=
  ⟨rfl, rfl⟩

theorem C5_witness :
    DesignBalancer.balance_turbine_temp {} twoBurnerArch =
      .ok ([⟨"FAR", 17/1000⟩],
           [("engine_balance.FAR", "burner.Fl_I:FAR"),
            ("burner.Fl_O:tot:T", "engine_balance.lhs:FAR")]) :=
  C5_turbine_temp_first_burner {} twoBurnerArch "burner" ["itb"] rfl

/-- C6 (amended): `_balance_areas` requires #inlets + #splitters + #mixers to
equal #nozzles (raising a `RuntimeError` otherwise), but it adds one
area-matching unknown only per Inlet and per Splitter: the mixer branch of
the loop adds no unknown (a mixer's own `balance.BPR` serves instead), so
the unknown count is #inlets + #splitters, not one per nozzle-feeding
component. -/
theorem C6_area_balances :
    (∀ (b : OffDesignBalancer) (arch : TurbofanArchitecture) (bals : List BalanceVar)
        (conns : List Conn), b.balance_areas arch = .ok (bals, conns) →
        ((arch.get_elements_by_type .Inlet).length + (arch.get_elements_by_type .Splitter).length
            + (arch.get_elements_by_type .Mixer).length
          = (arch.get_elements_by_type .Nozzle).length) ∧
        bals.length = (arch.get_elements_by_type .Inlet).length
          + (arch.get_elements_by_type .Splitter).length) ∧
    (∀ (b : OffDesignBalancer) (arch : TurbofanArchitecture),
        (arch.get_elements_by_type .Inlet).length + (arch.get_elements_by_type .Splitter).length
            + (arch.get_elements_by_type .Mixer).length
          ≠ (arch.get_elements_by_type .Nozzle).length →
        b.balance_areas arch = .error (.runtimeError
          "Number of inlets + number of splitters + number of mixers should be same as number of nozzles")) := by
  constructor
  · intro b arch bals conns h
    unfold OffDesignBalancer.balance_areas at h
    cases hiter : iterNozzleBalances arch with
    | error e => rw [hiter] at h; exact Except.noConfusion h
    | ok tups =>
      rw [hiter] at h
      unfold iterNozzleBalances at hiter
      by_cases hc : (arch.get_elements_by_type .Inlet).length
          + (arch.get_elements_by_type .Splitter).length
          + (arch.get_elements_by_type .Mixer).length
        = (arch.get_elements_by_type .Nozzle).length
      · refine ⟨hc, ?_⟩
        rw [if_neg (by simp only [List.length_map]; exact not_ne_iff.mpr hc)] at hiter
        injection hiter with htups
        injection h with h'
        injection h' with hbals hconns
        rw [← hbals, areaBals_flatten_len, ← htups]
        rw [List.enum_eq_enumFrom, enumFrom_zip_countP _ _ 0
          (by simp only [List.length_append, List.length_map]; omega)]
        rw [List.countP_append, List.countP_append, countP_tag, countP_tag, countP_tag]
        simp [List.length_map]
      · rw [if_pos (by simp only [List.length_map]; exact hc)] at hiter
        exact Except.noConfusion hiter
  · intro b arch hne
    have hiter : iterNozzleBalances arch = .error (.runtimeError
        "Number of inlets + number of splitters + number of mixers should be same as number of nozzles") := by
      unfold iterNozzleBalances
      rw [if_pos (by simp only [List.length_map]; exact hne)]
    unfold OffDesignBalancer.balance_areas
    rw [hiter]

theorem C6_counterexample :
    (mixArch.get_elements_by_type .Inlet).length = 1 ∧
    (mixArch.get_elements_by_type .Splitter).length = 0 ∧
    (mixArch.get_elements_by_type .Mixer).length = 1 ∧
    (mixArch.get_elements_by_type .Nozzle).length = 2 ∧
    (OffDesignBalancer.balance_areas {} mixArch).map (fun r => r.1.length) = .ok 1 :=
  ⟨rfl, rfl, rfl, rfl, rfl⟩

theorem C6_witness :
    ((get_turbojet_architecture.get_elements_by_type .Inlet).length
        + (get_turbojet_architecture.get_elements_by_type .Splitter).length
        + (get_turbojet_architecture.get_elements_by_type .Mixer).length
      = (get_turbojet_architecture.get_elements_by_type .Nozzle).length) ∧
    (OffDesignBalancer.balance_areas {} badCountArch = .error (.runtimeError
      "Number of inlets + number of splitters + number of mixers should be same as number of nozzles")) := by
  constructor
  · exact (C6_area_balances.1 {} get_turbojet_architecture
      [⟨"W_0", 90⟩]
      [("engine_balance.W_0", "inlet.Fl_I:stat:W"),
       ("nozzle.Throat:stat:area", "engine_balance.lhs:W_0")] rfl).1
  · exact C6_area_balances.2 {} badCountArch (by decide)

/-- C7: once `connect_balance_des_od` has run, the `nozzle_area` key is in
the cycle's `balance_connected_des_od` marker set, and any number of further
invocations return the cycle unchanged: the wiring of one call equals the
wiring of n+1 calls. -/
theorem C7_connect_des_od_idempotent (arch : TurbofanArchitecture)
    (mp mp' : ArchitectureMultiPointCycle)
    (h : OffDesignBalancer.connect_balance_des_od arch mp = .ok mp') :
    "nozzle_area" ∈ mp'.balance_connected_des_od ∧
    ∀ n, iterateConnectDesOd arch n mp' = .ok mp' := by
  have hmem : "nozzle_area" ∈ mp'.balance_connected_des_od := by
    unfold OffDesignBalancer.connect_balance_des_od at h
    split at h
    · next hmem' =>
      injection h with h'
      subst h'
      exact hmem'
    · cases hiter : iterNozzleBalances arch with
      | error e => rw [hiter] at h; simp at h
      | ok tups =>
        rw [hiter] at h
        injection h with h'
        subst h'
        simp
  have hstep : OffDesignBalancer.connect_balance_des_od arch mp' = .ok mp' := by
    unfold OffDesignBalancer.connect_balance_des_od
    rw [if_pos hmem]
  refine ⟨hmem, fun n => ?_⟩
  induction n with
  | zero => rfl
  | succ k ih =>
    show (match OffDesignBalancer.connect_balance_des_od arch mp' with
      | Except.error e => (Except.error e : Except EvalErr ArchitectureMultiPointCycle)
      | Except.ok mp1 => iterateConnectDesOd arch k mp1) = Except.ok mp'
    rw [hstep]
    exact ih

theorem C7_witness :
    "nozzle_area" ∈ mpW.balance_connected_des_od ∧
    iterateConnectDesOd get_turbojet_architecture 2 mpW = .ok mpW := by
  have h := C7_connect_des_od_idempotent get_turbojet_architecture mpCycle0 mpW rfl
  exact ⟨h.1, h.2 2⟩

/-- C8 (amended): `GearboxChoice.modify_architecture` on an architecture with
no fan raises nothing: it returns the architecture unchanged with both its
design variables reported inactive (`[False, False]`), completing silently
rather than raising an `ArchitectureConstructionError`. -/
theorem C8_gearbox_without_fan_noop (arch : TurbofanArchitecture) (g r : DecVal)
    (h : (arch.get_elements_by_type .Compressor).any (fun c => c.name = "fan") = false) :
    GearboxChoice.modify_architecture arch [g, r] = .ok (arch, [.b false, .b false]) := by
  unfold GearboxChoice.modify_architecture
  rw [h]
  rfl

theorem C8_counterexample :
    GearboxChoice.modify_architecture get_turbojet_architecture [.b true, .q 3] =
      .ok (get_turbojet_architecture, [.b false, .b false]) := rfl

theorem C8_witness :
    GearboxChoice.modify_architecture get_turbojet_architecture [.b true, .q 2] =
      .ok (get_turbojet_architecture, [.b false, .b false]) :=
  C8_gearbox_without_fan_noop get_turbojet_architecture (.b true) (.q 2) rfl

/-- C9: `IntegerDesignVariable.decode` raises `IndexError` on every index
outside `[0, len(values))`, and any error raised during
`generate_architecture` (decode errors included) propagates out of
`evaluate` uncaught, never converted to NaN rows. -/
theorem C9_encoding_error_propagates :
    (∀ (d : IntegerDesignVariable) (v : Int), (v < 0 ∨ (d.values.length : Int) ≤ v) →
        d.decode v = .error .indexError) ∧
    (∀ (p : ArchitectingProblem) (oracle : EvalOracle) (s : EvalState)
        (dv : List EncVal) (e : EvalErr),
        p.generate_architecture dv = .error e → p.evaluate oracle s dv = .error e) := by
  constructor
  · intro d v h
    unfold IntegerDesignVariable.decode
    by_cases hv : v < 0
    · rw [if_pos hv]
    · rw [if_neg hv]
      have hn : d.values.get? v.toNat = none := by
        rw [List.get?_eq_none]
        omega
      rw [hn]
  · exact evaluate_error_of_generate_error

theorem C9_witness :
    IntegerDesignVariable.decode ⟨"include_fan", [.b false, .b true], none⟩ 2 =
      .error .indexError ∧
    fanProblem.evaluate oracleNone evalState0 [.int 2, .real 5, .real 2] =
      .error .indexError := by
  refine ⟨C9_encoding_error_propagates.1 ⟨"include_fan", [.b false, .b true], none⟩ 2
    (Or.inr (by norm_num)), ?_⟩
  exact C9_encoding_error_propagates.2 fanProblem oracleNone evalState0
    [.int 2, .real 5, .real 2] .indexError rfl

/-- C10: the canonical imputed value of an inactive slot is the bounds
midpoint for a `ContinuousDesignVariable` and the encoded index 0 for an
`IntegerDesignVariable`; `generate_architecture`'s imputation loop writes
exactly `get_imputed_value` into a slot whose choice reports `False`. -/
theorem C10_imputed_defaults :
    (∀ c : ContinuousDesignVariable, c.get_imputed_value = .real ((c.bounds.1 + c.bounds.2) / 2)) ∧
    (∀ d : IntegerDesignVariable, d.get_imputed_value = .int 0) ∧
    (∀ (dv : DesignVariable) (cur : EncVal),
        imputeSlot dv (.b false) cur = .ok (dv.get_imputed_value, false)) :=
  ⟨fun _ => rfl, fun _ => rfl, fun dv cur => by simp [imputeSlot]⟩
